import Mathlib

/-
  Verification development for the CST816S capacitive-touch driver
  (src/CST816S.cpp): a shallow embedding of the driver state, the
  rotation transforms, the touch-block decoding, the availability
  mailbox and the register writes, with theorems about the spec's
  claims.

  Machine integers are modelled as Nat / Int with explicit `% 256`
  where a value is stored into a uint8_t; the C++ `%` on int (which
  truncates toward zero) is Int.tmod.  The two-wire bus is modelled
  by explicit parameters: `txFail` (the underlying transmission did
  not acknowledge), `busBytes` (the bytes the bus delivers on a
  successful read) and `garbage` (the indeterminate prior contents of
  the caller's stack buffer, which the failed path leaves untouched).
-/

namespace CST816S

/-- Gesture identifiers.  Modelled from the spec: the header file
declaring the `GESTURE` enumeration is not under src/ (only
CST816S.cpp is).  The spec fixes the swipe identifiers 1..4 via the
rotation permutation tables and the fixture (byte 0x02 decodes to
SWIPE UP); the click/press codes are the chip's standard codes named
by the spec's gesture list. -/
def NONE : Nat := 0x00

def SWIPE_DOWN : Nat := 0x01

def SWIPE_UP : Nat := 0x02

def SWIPE_LEFT : Nat := 0x03

def SWIPE_RIGHT : Nat := 0x04

def SINGLE_CLICK : Nat := 0x05

def DOUBLE_CLICK : Nat := 0x0B

def LONG_PRESS : Nat := 0x0C

/-- Device address.  Modelled from the spec: the `CST816S_ADDRESS`
macro lives in the header, which is not under src/; the spec calls it
a fixed device address. -/
def CST816S_ADDRESS : Nat := 0x15

/-- The decoded touch snapshot (`data` member of the driver, struct
declared in the missing header; its fields are exactly those written
by CST816S.cpp: gestureID, points, event, x, y, version,
versionInfo).  `x` and `y` are C ints (rotatePoint takes `int &`). -/
structure TouchData where
  gestureID : Nat
  points : Nat
  event : Nat
  x : Int
  y : Int
  version : Nat
  versionInfo : List Nat
deriving Repr, DecidableEq

/-- Driver object state: the member variables of class CST816S that
the modelled methods read or write. -/
structure State where
  sda : Int
  scl : Int
  rst : Int
  irq : Int
  rotation : Int
  width : Int
  height : Int
  event_available : Bool
  data : TouchData
deriving Repr, DecidableEq

/-- One bus transaction, as recorded by the transport adapter:
direction (read or write), device address, register, length, and the
payload bytes (empty for reads). -/
structure BusOp where
  isRead : Bool
  addr : Nat
  reg : Nat
  len : Nat
  payload : List Nat
deriving Repr, DecidableEq

/-- Constructor `CST816S(int sda, int scl, int rst, int irq, TwoWire&)`:
sets `_rotation = 0` and the four pins; `_width`, `_height` and `data`
are left uninitialized, so they keep the indeterminate values of the
pre-construction state `s0`. -/
def construct (s0 : State) (sda scl rst irq : Int) : State :=
  { s0 with rotation := 0, sda := sda, scl := scl, rst := rst, irq := irq }

/-- Constructor `CST816S(int sda, int scl, int rst, int irq, int rotation,
TwoWire&)`: stores the rotation argument as given (no normalization). -/
def constructRot (s0 : State) (sda scl rst irq rotation : Int) : State :=
  { s0 with rotation := rotation, sda := sda, scl := scl, rst := rst, irq := irq }

/-- Method `setSize(int w, int h)`. -/
def setSize (s : State) (w h : Int) : State :=
  { s with width := w, height := h }

/-- Method `setRotation(int rotation)`: `_rotation = rotation % 4` with
the C++ truncated remainder. -/
def setRotation (s : State) (rotation : Int) : State :=
  { s with rotation := rotation.tmod 4 }

/-- Permutation table `rotation90` of rotateGesture. -/
def rotation90 : List Nat := [0, 0x03, 0x04, 0x02, 0x01]

/-- Permutation table `rotation180` of rotateGesture. -/
def rotation180 : List Nat := [0, 0x02, 0x01, 0x04, 0x03]

/-- Permutation table `rotation270` of rotateGesture. -/
def rotation270 : List Nat := [0, 0x04, 0x03, 0x01, 0x02]

/-- Method `rotateGesture(uint8_t gestureID)`: identifiers outside 1..4
or rotation 0 pass through; otherwise the table for the current
rotation is indexed; an unknown rotation passes through (default
branch). -/
def rotateGesture (s : State) (gestureID : Nat) : Nat :=
  if gestureID < 1 ∨ 4 < gestureID ∨ s.rotation = 0 then gestureID
  else if s.rotation = 1 then rotation90.getD gestureID 0
  else if s.rotation = 2 then rotation180.getD gestureID 0
  else if s.rotation = 3 then rotation270.getD gestureID 0
  else gestureID

/-- Method `rotatePoint(int &x, int &y)`: returns the new (x, y) pair. -/
def rotatePoint (s : State) (x y : Int) : Int × Int :=
  if s.rotation = 1 then (y, s.width - 1 - x)
  else if s.rotation = 2 then (s.width - 1 - x, s.height - 1 - y)
  else if s.rotation = 3 then (s.height - 1 - y, x)
  else (x, y)

/-- Method `i2c_read(addr, reg_addr, reg_data, length)`: on a failed
transmission it returns (uint8_t)(-1) = 255 before reading, so the
caller's buffer keeps its prior indeterminate contents `garbage`;
on success it returns 0 and the buffer holds the bus bytes.  The
second component is the buffer the caller sees, the third the bus
transaction performed. -/
def i2c_read (addr reg len : Nat) (txFail : Bool) (busBytes garbage : List Nat) :
    Nat × List Nat × List BusOp :=
  if txFail then (255, garbage, [⟨true, addr, reg, len, []⟩])
  else (0, busBytes, [⟨true, addr, reg, len, []⟩])

/-- Method `read_touch()`: reads 6 bytes from register 0x01 (ignoring
the i2c_read return value), decodes them into `data`, and applies
rotatePoint to the decoded coordinates.  Buffer cells are uint8_t,
hence the `% 256`. -/
def read_touch (s : State) (txFail : Bool) (busBytes garbage : List Nat) :
    State × List BusOp :=
  let r := i2c_read CST816S_ADDRESS 0x01 6 txFail busBytes garbage
  let b : Nat → Nat := fun i => r.2.1.getD i 0 % 256
  let xPre : Int := (b 2 % 16) * 256 + b 3
  let yPre : Int := (b 4 % 16) * 256 + b 5
  let p := rotatePoint s xPre yPre
  ({ s with data := { s.data with
      gestureID := rotateGesture s (b 0)
      points := b 1
      event := b 2 / 64
      x := p.1
      y := p.2 } }, r.2.2)

/-- Method `handleISR()`: sets the availability flag (the optional user
callback does not touch the modelled state). -/
def handleISR (s : State) : State :=
  { s with event_available := true }

/-- Method `available()`: if the flag is set, performs read_touch,
clears the flag and returns true; otherwise returns false doing
nothing.  Result: (returned bool, new state, bus transactions
performed). -/
def available (s : State) (txFail : Bool) (busBytes garbage : List Nat) :
    Bool × State × List BusOp :=
  if s.event_available then
    let r := read_touch s txFail busBytes garbage
    (true, { r.1 with event_available := false }, r.2)
  else (false, s, [])

/-- Method `set_auto_sleep_time(int seconds)`: clamps to [1, 255], casts
to uint8_t and writes the single byte to register 0xF9.  Returns the
bus transactions performed. -/
def set_auto_sleep_time (seconds : Int) : List BusOp :=
  let t := if seconds < 1 then (1 : Int) else if 255 < seconds then 255 else seconds
  [⟨false, CST816S_ADDRESS, 0xF9, 1, [t.toNat % 256]⟩]

/-- Method `gesture()`: switch on `data.gestureID` over the GESTURE
enumeration constants, with "UNKNOWN" as the default branch. -/
def gesture (s : State) : String :=
  if s.data.gestureID = NONE then "NONE"
  else if s.data.gestureID = SWIPE_DOWN then "SWIPE DOWN"
  else if s.data.gestureID = SWIPE_UP then "SWIPE UP"
  else if s.data.gestureID = SWIPE_LEFT then "SWIPE LEFT"
  else if s.data.gestureID = SWIPE_RIGHT then "SWIPE RIGHT"
  else if s.data.gestureID = SINGLE_CLICK then "SINGLE CLICK"
  else if s.data.gestureID = DOUBLE_CLICK then "DOUBLE CLICK"
  else if s.data.gestureID = LONG_PRESS then "LONG PRESS"
  else "UNKNOWN"

/-- A concrete touch snapshot used by the concrete test states. -/
def data0 : TouchData :=
  ⟨0, 0, 0, 80, 16, 0, [0, 0, 0]⟩

/-- A concrete driver state with rotation 0 and a 240 by 240 display. -/
def st0 : State :=
  ⟨6, 7, 13, 5, 0, 240, 240, false, data0⟩

/-- A concrete driver state with rotation 1 and a 100 by 100 display. -/
def stR1 : State :=
  ⟨6, 7, 13, 5, 1, 100, 100, false, data0⟩

/-- A concrete driver state with rotation 1 and width 5000. -/
def stWide : State :=
  ⟨6, 7, 13, 5, 1, 5000, 100, false, data0⟩

/-- A concrete driver state with the availability flag set. -/
def stPending : State :=
  ⟨6, 7, 13, 5, 0, 240, 240, true, data0⟩

/-- A concrete driver state with rotation 2. -/
def stR2 : State :=
  ⟨6, 7, 13, 5, 2, 240, 100, false, data0⟩

/-- A concrete driver state with rotation 1 on a 240 wide, 100 high display. -/
def stR1b : State :=
  ⟨6, 7, 13, 5, 1, 240, 100, false, data0⟩

/-- A concrete driver state with rotation 3 on the swapped (100 wide, 240
high) display, consistent with stR1b after a quarter turn. -/
def stR3 : State :=
  ⟨6, 7, 13, 5, 3, 100, 240, false, data0⟩

/-- A concrete driver state whose snapshot holds a gesture code outside the
enumeration. -/
def stUnknown : State :=
  ⟨6, 7, 13, 5, 0, 240, 240, false, ⟨99, 0, 0, 0, 0, 0, [0, 0, 0]⟩⟩

/-- The nine literal strings gesture() can produce. -/
def gestureNames : List String :=
  ["NONE", "SWIPE DOWN", "SWIPE UP", "SWIPE LEFT", "SWIPE RIGHT",
   "SINGLE CLICK", "DOUBLE CLICK", "LONG PRESS", "UNKNOWN"]

/-- The gesture codes of the defined enumeration. -/
def gestureCodes : List Nat :=
  [NONE, SWIPE_DOWN, SWIPE_UP, SWIPE_LEFT, SWIPE_RIGHT,
   SINGLE_CLICK, DOUBLE_CLICK, LONG_PRESS]

/-- C7: for every integer argument s, set_auto_sleep_time(s) performs exactly
one bus write of the single byte min(max(s, 1), 255) to register 0xF9; in
particular 0 writes 1 and 300 writes 255. -/
theorem set_auto_sleep_time_clamps (seconds : Int) :
    set_auto_sleep_time seconds =
      [⟨false, CST816S_ADDRESS, 0xF9, 1, [(min (max seconds 1) 255).toNat]⟩] ∧
    set_auto_sleep_time 0 = [⟨false, CST816S_ADDRESS, 0xF9, 1, [1]⟩] ∧
    set_auto_sleep_time 300 = [⟨false, CST816S_ADDRESS, 0xF9, 1, [255]⟩] := by
  refine ⟨?_, by decide, by decide⟩
  have h : ((if seconds < 1 then (1 : Int) else if 255 < seconds then 255
      else seconds).toNat % 256) = (min (max seconds 1) 255).toNat := by
    rcases lt_or_le seconds 1 with h1 | h1
    · rw [if_pos h1]
      rw [max_eq_right (le_of_lt h1)]
      rw [min_eq_left (by omega : (1 : Int) ≤ 255)]
      decide
    · rw [if_neg (not_lt.mpr h1), max_eq_left h1]
      rcases lt_or_le (255 : Int) seconds with h2 | h2
      · rw [if_pos h2, min_eq_right (le_of_lt h2)]
        decide
      · rw [if_neg (not_lt.mpr h2), min_eq_left h2]
        omega
  simp only [set_auto_sleep_time, h]

/-- C9: gesture() always returns one of the nine literal strings, and
returns "UNKNOWN" for every gesture code outside the defined enumeration. -/
theorem gesture_name_range (s : State) :
    gesture s ∈ gestureNames ∧
    (s.data.gestureID ∉ gestureCodes → gesture s = "UNKNOWN") := by
  constructor
  · unfold gesture gestureNames
    split_ifs <;> simp
  · intro h
    unfold gestureCodes at h
    simp only [List.mem_cons, List.not_mem_nil, or_false] at h
    push_neg at h
    obtain ⟨h0, h1, h2, h3, h4, h5, h6, h7⟩ := h
    unfold gesture
    simp [h0, h1, h2, h3, h4, h5, h6, h7]

/-- Witness for C9 at the concrete out-of-enumeration code 99. -/
theorem gesture_name_range_witness : gesture stUnknown = "UNKNOWN" :=
  (gesture_name_range stUnknown).2 (by decide)

/-- C10: when the availability flag is not set, available() returns false,
performs no bus transaction, and leaves the whole driver state (hence every
snapshot field and the flag) unchanged. -/
theorem available_idle_frame (s : State) (txFail : Bool) (busBytes garbage : List Nat)
    (h : s.event_available = false) :
    (available s txFail busBytes garbage).1 = false ∧
    (available s txFail busBytes garbage).2.1 = s ∧
    (available s txFail busBytes garbage).2.2 = [] := by
  simp [available, h]

/-- Witness for C10 at a concrete idle state. -/
theorem available_idle_frame_witness :
    (available st0 false [] []).1 = false ∧
    (available st0 false [] []).2.1 = st0 ∧
    (available st0 false [] []).2.2 = [] :=
  available_idle_frame st0 false [] [] rfl

/-- C3 counterexample: setRotation(-1) stores the C++ truncated remainder
-1, not the mathematical residue 3, and -1 is outside {0, 1, 2, 3}; the
rotation-taking constructor stores 5 unnormalized. -/
theorem setRotation_counterexample :
    (setRotation st0 (-1)).rotation = -1 ∧
    (-1 : Int) % 4 = 3 ∧
    (setRotation st0 (-1)).rotation ∉ ([0, 1, 2, 3] : List Int) ∧
    (constructRot st0 6 7 13 5 5).rotation = 5 ∧
    (constructRot st0 6 7 13 5 5).rotation ∉ ([0, 1, 2, 3] : List Int) := by
  decide

/-- C3 amended: setRotation(n) stores the truncated remainder n % 4, which
for nonnegative n equals n mod 4 and lies in {0, 1, 2, 3}; the default
constructor establishes rotation 0; the rotation-taking constructor stores
its argument unnormalized. -/
theorem setRotation_normalizes (s s0 : State) (n sda scl rst irq r : Int) :
    (setRotation s n).rotation = n.tmod 4 ∧
    (0 ≤ n → (setRotation s n).rotation = n % 4 ∧
      (setRotation s n).rotation ∈ ([0, 1, 2, 3] : List Int)) ∧
    (construct s0 sda scl rst irq).rotation = 0 ∧
    (constructRot s0 sda scl rst irq r).rotation = r := by
  refine ⟨rfl, ?_, rfl, rfl⟩
  intro hn
  have he : n.tmod 4 = n % 4 := by
    rw [Int.tmod_eq_emod hn (by omega)]
  have hb : 0 ≤ n % 4 ∧ n % 4 < 4 :=
    ⟨Int.emod_nonneg n (by omega), Int.emod_lt_of_pos n (by omega)⟩
  refine ⟨he, ?_⟩
  show n.tmod 4 ∈ _
  rw [he]
  have : n % 4 = 0 ∨ n % 4 = 1 ∨ n % 4 = 2 ∨ n % 4 = 3 := by omega
  rcases this with h | h | h | h <;> simp [h]

/-- Witness for C3's amended claim: setRotation(5) stores 5 mod 4 = 1. -/
theorem setRotation_normalizes_witness :
    (setRotation st0 5).rotation = 5 % 4 ∧
    (setRotation st0 5).rotation ∈ ([0, 1, 2, 3] : List Int) :=
  (setRotation_normalizes st0 st0 5 6 7 13 5 0).2.1 (by decide)

/-- C4: with rotation 0, rotateGesture is the identity on all gesture IDs;
gesture IDs outside the swipe range {1, 2, 3, 4} are fixed points for every
rotation setting; and for each rotation setting in {1, 2, 3}, rotateGesture
maps {1, 2, 3, 4} bijectively onto {1, 2, 3, 4} (stated as: the image list
is a permutation of [1, 2, 3, 4]). -/
theorem rotateGesture_bijection (s : State) :
    (s.rotation = 0 → ∀ g, rotateGesture s g = g) ∧
    (∀ g, g ∉ ([1, 2, 3, 4] : List Nat) → rotateGesture s g = g) ∧
    (s.rotation = 1 ∨ s.rotation = 2 ∨ s.rotation = 3 →
      (List.map (rotateGesture s) [1, 2, 3, 4]).Perm [1, 2, 3, 4]) := by
  refine ⟨?_, ?_, ?_⟩
  · intro h g
    simp [rotateGesture, h]
  · intro g hg
    have hout : g < 1 ∨ 4 < g := by
      simp only [List.mem_cons, List.not_mem_nil, or_false] at hg
      push_neg at hg
      omega
    rcases hout with h | h <;> simp [rotateGesture, h]
  · intro hr
    rcases hr with h | h | h <;>
      simp [rotateGesture, h, rotation90, rotation180, rotation270] <;>
      decide

/-- Witness for C4 at concrete states: rotation 0 passes gesture 2 through,
rotation 1 fixes the non-swipe code 5, and at rotation 1 the swipe image is
a permutation of the swipe range. -/
theorem rotateGesture_bijection_witness :
    rotateGesture st0 2 = 2 ∧
    rotateGesture stR1 5 = 5 ∧
    (List.map (rotateGesture stR1) [1, 2, 3, 4]).Perm [1, 2, 3, 4] :=
  ⟨(rotateGesture_bijection st0).1 rfl 2,
   (rotateGesture_bijection stR1).2.1 5 (by decide),
   (rotateGesture_bijection stR1).2.2 (Or.inl rfl)⟩

/-- C5: rotatePoint realizes the spec's formulas (0 degrees identity;
90: (y, W - 1 - x); 180: (W - 1 - x, H - 1 - y); 270: (H - 1 - y, x)); with
consistent sizes (the 270-degree state declares the quarter-turned, i.e.
swapped, width/height of the 90-degree state) the settings 1 and 3 are
mutual inverses in either order, and setting 2 is self-inverse. -/
theorem rotatePoint_inverses (s s1 s3 s2 : State) (x y W H : Int)
    (h1 : s1.rotation = 1 ∧ s1.width = W ∧ s1.height = H)
    (h3 : s3.rotation = 3 ∧ s3.width = H ∧ s3.height = W)
    (h2 : s2.rotation = 2) :
    (s.rotation = 0 → rotatePoint s x y = (x, y)) ∧
    (s.rotation = 1 → rotatePoint s x y = (y, s.width - 1 - x)) ∧
    (s.rotation = 2 → rotatePoint s x y = (s.width - 1 - x, s.height - 1 - y)) ∧
    (s.rotation = 3 → rotatePoint s x y = (s.height - 1 - y, x)) ∧
    rotatePoint s3 (rotatePoint s1 x y).1 (rotatePoint s1 x y).2 = (x, y) ∧
    rotatePoint s1 (rotatePoint s3 x y).1 (rotatePoint s3 x y).2 = (x, y) ∧
    rotatePoint s2 (rotatePoint s2 x y).1 (rotatePoint s2 x y).2 = (x, y) := by
  obtain ⟨h1r, h1w, h1h⟩ := h1
  obtain ⟨h3r, h3w, h3h⟩ := h3
  refine ⟨?_, ?_, ?_, ?_, ?_, ?_, ?_⟩
  · intro h
    simp [rotatePoint, h]
  · intro h
    simp [rotatePoint, h]
  · intro h
    simp [rotatePoint, h]
  · intro h
    simp [rotatePoint, h]
  · simp only [rotatePoint, h1r, h3r, h1w, h1h, h3w, h3h]
    norm_num
  · simp only [rotatePoint, h1r, h3r, h1w, h1h, h3w, h3h]
    norm_num
  · simp only [rotatePoint, h2]
    norm_num

/-- Witness for C5 on a concrete 240 by 100 display: the quarter-turn pair
inverts a concrete point, and the half turn is self-inverse. -/
theorem rotatePoint_inverses_witness :
    rotatePoint stR3 (rotatePoint stR1b 30 40).1 (rotatePoint stR1b 30 40).2 = (30, 40) ∧
    rotatePoint stR2 (rotatePoint stR2 30 40).1 (rotatePoint stR2 30 40).2 = (30, 40) :=
  ⟨(rotatePoint_inverses st0 stR1b stR3 stR2 30 40 240 100
      ⟨rfl, rfl, rfl⟩ ⟨rfl, rfl, rfl⟩ rfl).2.2.2.2.1,
   (rotatePoint_inverses st0 stR1b stR3 stR2 30 40 240 100
      ⟨rfl, rfl, rfl⟩ ⟨rfl, rfl, rfl⟩ rfl).2.2.2.2.2.2⟩

/-- C1 counterexample: with rotation 1 in effect, the fixture block decodes
to a stored x of 16, not the claim's raw-formula value 80, because the
stored coordinates pass through rotatePoint. -/
theorem read_touch_decode_counterexample :
    (read_touch stR1 false [0x02, 0x01, 0x30, 0x50, 0x20, 0x10] []).1.data.x = 16 ∧
    (read_touch stR1 false [0x02, 0x01, 0x30, 0x50, 0x20, 0x10] []).1.data.x ≠ 80 := by
  decide

/-- C1 amended: a successful poll of block [b0..b5] stores point count b1,
event kind b2 >> 6, gesture rotateGesture(b0), and stores in (x, y) the
rotatePoint image of the raw 12-bit coordinates ((b2 and 0xF) << 8 or b3,
(b4 and 0xF) << 8 or b5); with rotation 0 the stored x, y equal the raw
values themselves. -/
theorem read_touch_decode (s : State) (b0 b1 b2 b3 b4 b5 : Nat) (garbage : List Nat)
    (w0 : b0 < 256) (w1 : b1 < 256) (w2 : b2 < 256) (w3 : b3 < 256)
    (w4 : b4 < 256) (w5 : b5 < 256) :
    (read_touch s false [b0, b1, b2, b3, b4, b5] garbage).1.data.points = b1 ∧
    (read_touch s false [b0, b1, b2, b3, b4, b5] garbage).1.data.event = b2 / 64 ∧
    (read_touch s false [b0, b1, b2, b3, b4, b5] garbage).1.data.gestureID =
      rotateGesture s b0 ∧
    ((read_touch s false [b0, b1, b2, b3, b4, b5] garbage).1.data.x,
     (read_touch s false [b0, b1, b2, b3, b4, b5] garbage).1.data.y) =
      rotatePoint s ((b2 : Int) % 16 * 256 + b3) ((b4 : Int) % 16 * 256 + b5) ∧
    (s.rotation = 0 →
      (read_touch s false [b0, b1, b2, b3, b4, b5] garbage).1.data.x =
        (b2 : Int) % 16 * 256 + b3 ∧
      (read_touch s false [b0, b1, b2, b3, b4, b5] garbage).1.data.y =
        (b4 : Int) % 16 * 256 + b5) := by
  simp only [read_touch, i2c_read, List.getD_cons_zero,
    List.getD_cons_succ, Nat.mod_eq_of_lt w0, Nat.mod_eq_of_lt w1, Nat.mod_eq_of_lt w2,
    Nat.mod_eq_of_lt w3, Nat.mod_eq_of_lt w4, Nat.mod_eq_of_lt w5, Bool.false_eq_true,
    if_false]
  refine ⟨trivial, trivial, trivial, trivial, fun h => ?_⟩
  simp [rotatePoint, h]

/-- Witness for C1's amended claim: the fixture block at rotation 0 decodes
to gesture 2, 1 point, event 0, x 80, y 16. -/
theorem read_touch_decode_witness :
    (read_touch st0 false [0x02, 0x01, 0x30, 0x50, 0x20, 0x10] []).1.data.points = 1 ∧
    (read_touch st0 false [0x02, 0x01, 0x30, 0x50, 0x20, 0x10] []).1.data.event = 0 ∧
    (read_touch st0 false [0x02, 0x01, 0x30, 0x50, 0x20, 0x10] []).1.data.gestureID = 2 ∧
    (read_touch st0 false [0x02, 0x01, 0x30, 0x50, 0x20, 0x10] []).1.data.x = 80 ∧
    (read_touch st0 false [0x02, 0x01, 0x30, 0x50, 0x20, 0x10] []).1.data.y = 16 :=
  ⟨(read_touch_decode st0 0x02 0x01 0x30 0x50 0x20 0x10 [] (by decide) (by decide)
      (by decide) (by decide) (by decide) (by decide)).1,
   (read_touch_decode st0 0x02 0x01 0x30 0x50 0x20 0x10 [] (by decide) (by decide)
      (by decide) (by decide) (by decide) (by decide)).2.1.trans (by decide),
   (read_touch_decode st0 0x02 0x01 0x30 0x50 0x20 0x10 [] (by decide) (by decide)
      (by decide) (by decide) (by decide) (by decide)).2.2.1.trans (by decide),
   (((read_touch_decode st0 0x02 0x01 0x30 0x50 0x20 0x10 [] (by decide) (by decide)
      (by decide) (by decide) (by decide) (by decide)).2.2.2.2 rfl).1).trans (by decide),
   (((read_touch_decode st0 0x02 0x01 0x30 0x50 0x20 0x10 [] (by decide) (by decide)
      (by decide) (by decide) (by decide) (by decide)).2.2.2.2 rfl).2).trans (by decide)⟩

/-- C6 counterexample: with rotation 1 and width 5000 declared, polling the
all-zero block stores y = 4999, exceeding 4095. -/
theorem read_touch_coord_counterexample :
    (read_touch stWide false [0, 0, 0, 0, 0, 0] []).1.data.y = 4999 ∧
    4095 < (read_touch stWide false [0, 0, 0, 0, 0, 0] []).1.data.y := by
  decide

/-- Bound on rotatePoint: if the declared width and height are at most 4096
and the incoming coordinates lie in [0, 4095], the rotated coordinates are
at most 4095, for every rotation setting. -/
theorem rotatePoint_le (s : State) (x y : Int)
    (hW : s.width ≤ 4096) (hH : s.height ≤ 4096)
    (hx0 : 0 ≤ x) (hx : x ≤ 4095) (hy0 : 0 ≤ y) (hy : y ≤ 4095) :
    (rotatePoint s x y).1 ≤ 4095 ∧ (rotatePoint s x y).2 ≤ 4095 := by
  unfold rotatePoint
  split_ifs <;> constructor <;> simp <;> omega

/-- C6 amended: for every 6-byte block (delivered or indeterminate), every
rotation setting, and declared width and height at most 4096, the stored x
and y after a poll never exceed 4095. -/
theorem read_touch_coord_bound (s : State) (txFail : Bool) (busBytes garbage : List Nat)
    (hW : s.width ≤ 4096) (hH : s.height ≤ 4096) :
    (read_touch s txFail busBytes garbage).1.data.x ≤ 4095 ∧
    (read_touch s txFail busBytes garbage).1.data.y ≤ 4095 := by
  simp only [read_touch, i2c_read]
  cases txFail
  · simp only [Bool.false_eq_true, if_false]
    apply rotatePoint_le s _ _ hW hH <;> push_cast <;> omega
  · simp only [if_true]
    apply rotatePoint_le s _ _ hW hH <;> push_cast <;> omega

/-- Witness for C6's amended claim at a concrete state and block. -/
theorem read_touch_coord_bound_witness :
    (read_touch stR1 false [0x02, 0x01, 0x30, 0x50, 0x20, 0x10] []).1.data.x ≤ 4095 ∧
    (read_touch stR1 false [0x02, 0x01, 0x30, 0x50, 0x20, 0x10] []).1.data.y ≤ 4095 :=
  read_touch_coord_bound stR1 false [0x02, 0x01, 0x30, 0x50, 0x20, 0x10] []
    (by decide) (by decide)

/-- C2: the availability flag is a single-slot mailbox: handleISR sets it
idempotently; available() returns exactly the flag's prior value; after any
call to available() the flag is clear; and after a burst of n >= 1
interrupts the first poll returns true and every further poll (from any
state with the flag clear) returns false and changes nothing, so exactly
one poll of the burst returns true. -/
theorem availability_mailbox (s : State) (n : Nat) (hn : 1 ≤ n)
    (txFail : Bool) (busBytes garbage : List Nat) :
    (handleISR s).event_available = true ∧
    handleISR (handleISR s) = handleISR s ∧
    (∀ t : State, (available t txFail busBytes garbage).1 = t.event_available) ∧
    (∀ t : State, (available t txFail busBytes garbage).2.1.event_available = false) ∧
    (available (Nat.iterate handleISR n s) txFail busBytes garbage).1 = true ∧
    (∀ t : State, t.event_available = false →
      (available t txFail busBytes garbage).1 = false ∧
      (available t txFail busBytes garbage).2.1 = t) := by
  have hpoll : ∀ t : State, (available t txFail busBytes garbage).1 = t.event_available := by
    intro t
    cases h : t.event_available <;> simp [available, h]
  have hclear : ∀ t : State, (available t txFail busBytes garbage).2.1.event_available = false := by
    intro t
    cases h : t.event_available <;> simp [available, h]
  have hiter : (Nat.iterate handleISR n s).event_available = true := by
    induction n with
    | zero => omega
    | succ k ih =>
      rw [Function.iterate_succ_apply']
      rfl
  refine ⟨rfl, rfl, hpoll, hclear, ?_, ?_⟩
  · rw [hpoll, hiter]
  · intro t h
    simp [available, h]

/-- Witness for C2: a burst of two interrupts from a concrete idle state is
consumed by exactly one successful poll. -/
theorem availability_mailbox_witness :
    (available (Nat.iterate handleISR 2 st0) false [] []).1 = true :=
  (availability_mailbox st0 2 (by decide) false [] []).2.2.2.2.1

/-- C8 counterexample: from a concrete pending state whose snapshot has
x = 80, a poll whose bus transaction fails (and whose stack buffer happens
to hold zeros) overwrites the snapshot, so it is not left stale. -/
theorem i2c_failure_counterexample :
    stPending.event_available = true ∧
    stPending.data.x = 80 ∧
    (available stPending true [] [0, 0, 0, 0, 0, 0]).2.1.data.x = 0 ∧
    (available stPending true [] [0, 0, 0, 0, 0, 0]).2.1.data.x ≠ stPending.data.x := by
  decide

/-- C8 amended: a failed bus transaction makes i2c_read return the sentinel
(uint8_t)(-1) = 255 (success returns 0) rather than throw; read_touch does
not branch on that value, proceeding to decode exactly as if the
indeterminate buffer contents had been delivered, so the snapshot fields
gestureID, points, event, x, y are overwritten from indeterminate data (not
guaranteed stale); only version and versionInfo are untouched. -/
theorem i2c_failure_behavior (s : State) (addr reg len : Nat) (busBytes garbage : List Nat) :
    (i2c_read addr reg len true busBytes garbage).1 = 255 ∧
    (i2c_read addr reg len false busBytes garbage).1 = 0 ∧
    read_touch s true busBytes garbage = read_touch s false garbage garbage ∧
    (read_touch s true busBytes garbage).1.data.version = s.data.version ∧
    (read_touch s true busBytes garbage).1.data.versionInfo = s.data.versionInfo := by
  refine ⟨rfl, rfl, ?_, rfl, rfl⟩
  simp [read_touch, i2c_read]

end CST816S
